import Mathlib

/-!
Verification of the region-reconstruction pipeline and session state machine
of the princess-WM-removal repository.

The repository ships several variants of the same single-component React app.
We embed, per variant, the parts the specification's claims are about:

* the patch sampler inside `processFrame` (App.tsx "v10" engine, lines 339-353,
  and the part_002 "v5" engine, lines 95-105);
* the compositor passes of the v10 engine (App.tsx lines 355-379), including the
  rounded-rectangle clip mask and the grain re-injection loop;
* the session record and its `reset` / `handleFileChange` / `handleProcess`
  handlers (part_000, part_001, App.tsx variants);
* the staged progress sequence (part_000 `handleProcess`, part_002
  `simulateProgress`) and the platform-label detection chains.

Pixel geometry is embedded over `ℚ` (the source computes with JS numbers on
fractional zone coordinates); machine strings are Lean `String`s with
hand-rolled, kernel-reducible substring helpers.
-/

/-! ## String helpers (kernel-reducible replacements for JS `includes` / `startsWith` / `toLowerCase`) -/

def headMatches : List Char → List Char → Bool
  | [], _ => true
  | _ :: _, [] => false
  | a :: as, b :: bs => a == b && headMatches as bs

def hasSub (pat : List Char) : List Char → Bool
  | [] => headMatches pat []
  | c :: rest => headMatches pat (c :: rest) || hasSub pat rest

def lowerStr (s : String) : String := ⟨s.data.map Char.toLower⟩

/-- JS `s.includes(pat)`. -/
def strHas (s pat : String) : Bool := hasSub pat.data s.data

/-- JS `s.startsWith(pat)`. -/
def strStarts (s pat : String) : Bool := headMatches pat.data s.data

/-! ## Rectangles and frames -/

structure Rect where
  x : ℚ
  y : ℚ
  w : ℚ
  h : ℚ
deriving DecidableEq

/-- The rectangle `[r.x, r.x + r.w) × [r.y, r.y + r.h)` lies inside the frame
`[0, W) × [0, H)`. -/
def rectInFrame (r : Rect) (W H : ℚ) : Prop :=
  0 ≤ r.x ∧ r.x + r.w ≤ W ∧ 0 ≤ r.y ∧ r.y + r.h ≤ H

instance (r : Rect) (W H : ℚ) : Decidable (rectInFrame r W H) := by
  unfold rectInFrame; infer_instance

/-! ## Patch sampler, v10 engine (App.tsx lines 321-353)

Zones are fractional rectangles with a `type` hint; the sampler moves the
source rectangle away from the nearest edge by `margin = 30` and clamps to
`[0, dim - size]`. -/

inductive ZoneType
  | logo
  | bounce
  | sora
  | stock
deriving DecidableEq

structure Zone where
  x : ℚ
  y : ℚ
  w : ℚ
  h : ℚ
  type : ZoneType
deriving DecidableEq

/-- The `zones` table of the v10 `processFrame` (App.tsx lines 323-329). -/
def zonesV10 : List Zone :=
  [⟨1/100, 1/100, 28/100, 12/100, ZoneType.logo⟩,
   ⟨71/100, 1/100, 28/100, 12/100, ZoneType.logo⟩,
   ⟨71/100, 85/100, 28/100, 14/100, ZoneType.bounce⟩,
   ⟨1/100, 85/100, 28/100, 14/100, ZoneType.bounce⟩,
   ⟨20/100, 88/100, 60/100, 10/100, ZoneType.sora⟩,
   ⟨10/100, 40/100, 80/100, 20/100, ZoneType.stock⟩]

/-- A zone's pixel rectangle in a `W × H` frame (`zX = zone.x * canvas.width`, …). -/
def zonePixelRect (z : Zone) (W H : ℚ) : Rect :=
  ⟨z.x * W, z.y * H, z.w * W, z.h * H⟩

/-- The source-rectangle computation of the v10 `processFrame`
(App.tsx lines 339-353): direction shift by `margin = 30`, then
`sX = max(0, min(W - zW, sX))` and likewise for `sY`. -/
def sampleSourceV10 (z : Zone) (W H : ℚ) : Rect :=
  let zX := z.x * W
  let zY := z.y * H
  let zW := z.w * W
  let zH := z.h * H
  let margin : ℚ := 30
  let s : ℚ × ℚ :=
    match z.type with
    | ZoneType.logo => (if zX < W / 2 then zX + zW + margin else zX - zW - margin, zY)
    | ZoneType.bounce => (zX, if zY < H / 2 then zY + zH + margin else zY - zH - margin)
    | ZoneType.sora => (zX, zY - zH - margin)
    | ZoneType.stock => (zX + 10, zY + 50)
  ⟨max 0 (min (W - zW) s.1), max 0 (min (H - zH) s.2), zW, zH⟩

/-! ## Patch sampler, part_002 v5 engine (lines 79-105)

`masterZones` carries a `type` tag ('corner' / 'center') that the sampler never
reads; the drift is 60 and the clamp is `max(5, min(dim - size - 5, p))`. -/

structure ZoneP2 where
  x : ℚ
  y : ℚ
  w : ℚ
  h : ℚ
  type : String
deriving DecidableEq

/-- The `masterZones` table of the part_002 `processFrame` (lines 79-85). -/
def masterZones : List ZoneP2 :=
  [⟨1/100, 1/100, 22/100, 12/100, "corner"⟩,
   ⟨77/100, 1/100, 22/100, 12/100, "corner"⟩,
   ⟨76/100, 80/100, 23/100, 18/100, "corner"⟩,
   ⟨1/100, 80/100, 22/100, 18/100, "corner"⟩,
   ⟨35/100, 88/100, 30/100, 9/100, "center"⟩]

def zoneP2PixelRect (z : ZoneP2) (W H : ℚ) : Rect :=
  ⟨z.x * W, z.y * H, z.w * W, z.h * H⟩

/-- The patch-rectangle computation of the part_002 `processFrame`
(lines 95-105): drift 60 away from the nearer edge, then
`patchX = max(5, min(W - zW - 5, patchX))` and likewise for `patchY`. -/
def sampleSourceP002 (z : ZoneP2) (W H : ℚ) : Rect :=
  let zX := z.x * W
  let zY := z.y * H
  let zW := z.w * W
  let zH := z.h * H
  let drift : ℚ := 60
  let px0 := if z.x < 1/2 then zX + (zW + drift) else zX - (zW + drift)
  let py0 := if z.y > 1/2 then zY - (zH + drift) else zY + (zH + drift)
  ⟨max 5 (min (W - zW - 5) px0), max 5 (min (H - zH - 5) py0), zW, zH⟩

/-! ## Generic clamp lemmas -/

theorem clamp_lo (lo a s : ℚ) : lo ≤ max lo (min a s) := le_max_left lo _

theorem clamp_hi (lo a s : ℚ) (h : lo ≤ a) : max lo (min a s) ≤ a :=
  max_le h (min_le_left a s)

/-- A value clamped into `[0, W - c]` keeps `value + c ≤ W`. -/
theorem clamp_sub_add (W c s : ℚ) (h : 0 ≤ W - c) :
    max 0 (min (W - c) s) + c ≤ W := by
  have h1 : max 0 (min (W - c) s) ≤ W - c := max_le h (min_le_left _ _)
  linarith

/-- A value clamped into `[5, W - c - 5]` keeps `value + c ≤ W`. -/
theorem clamp5_sub_add (W c s : ℚ) (h : (5 : ℚ) ≤ W - c - 5) :
    max 5 (min (W - c - 5) s) + c ≤ W := by
  have h1 : max 5 (min (W - c - 5) s) ≤ W - c - 5 := max_le h (min_le_left _ _)
  linarith

/-- A value clamped into `[5, ·]` is nonnegative. -/
theorem clamp5_nonneg (a s : ℚ) : 0 ≤ max 5 (min a s) := by
  have := clamp_lo 5 a s
  linarith

/-- Containment and size preservation for the v10 sampler: holds for every
frame with `0 ≤ W`, `0 ≤ H` as soon as the zone fractions are in `[0, 1]`. -/
theorem sampleSourceV10_spec (z : Zone) (W H : ℚ)
    (hw1 : z.w ≤ 1) (hh1 : z.h ≤ 1) (hW : 0 ≤ W) (hH : 0 ≤ H) :
    (sampleSourceV10 z W H).w = (zonePixelRect z W H).w ∧
    (sampleSourceV10 z W H).h = (zonePixelRect z W H).h ∧
    rectInFrame (sampleSourceV10 z W H) W H := by
  have haw : 0 ≤ W - z.w * W := by
    have := mul_nonneg (sub_nonneg.mpr hw1) hW
    nlinarith
  have hah : 0 ≤ H - z.h * H := by
    have := mul_nonneg (sub_nonneg.mpr hh1) hH
    nlinarith
  refine ⟨rfl, rfl, clamp_lo _ _ _, ?_, clamp_lo _ _ _, ?_⟩
  · simp only [sampleSourceV10]
    exact clamp_sub_add W (z.w * W) _ haw
  · simp only [sampleSourceV10]
    exact clamp_sub_add H (z.h * H) _ hah

/-- Containment and size preservation for the part_002 sampler: needs the frame
to leave at least 10px of slack beyond the zone in each dimension, because the
clamp floor is the constant 5. -/
theorem sampleSourceP002_spec (z : ZoneP2) (W H : ℚ)
    (hw : z.w * W + 10 ≤ W) (hh : z.h * H + 10 ≤ H) :
    (sampleSourceP002 z W H).w = (zoneP2PixelRect z W H).w ∧
    (sampleSourceP002 z W H).h = (zoneP2PixelRect z W H).h ∧
    rectInFrame (sampleSourceP002 z W H) W H := by
  have haw : (5 : ℚ) ≤ W - z.w * W - 5 := by linarith
  have hah : (5 : ℚ) ≤ H - z.h * H - 5 := by linarith
  refine ⟨rfl, rfl, ?_, ?_, ?_, ?_⟩
  · simp only [sampleSourceP002]
    exact clamp5_nonneg _ _
  · simp only [sampleSourceP002]
    exact clamp5_sub_add W (z.w * W) _ haw
  · simp only [sampleSourceP002]
    exact clamp5_nonneg _ _
  · simp only [sampleSourceP002]
    exact clamp5_sub_add H (z.h * H) _ hah

/-! ## Claim C1 -/

/-- C1 counterexample: the claim promises a fully in-frame source rectangle for
every frame size `W, H ≥ 1`, "even for degenerate near-edge or tiny-frame
inputs", but the part_002 sampler clamps into `[5, dim - size - 5]`, whose lower
bound 5 already lies outside a 1×1 frame: for the top-left master zone at
`W = H = 1` the returned rectangle starts at `x = 5`. -/
theorem C1_counterexample :
    (⟨1/100, 1/100, 22/100, 12/100, "corner"⟩ : ZoneP2) ∈ masterZones ∧
    ¬ rectInFrame
        (sampleSourceP002 ⟨1/100, 1/100, 22/100, 12/100, "corner"⟩ 1 1) 1 1 := by
  refine ⟨List.mem_cons_self _ _, ?_⟩
  simp only [sampleSourceP002, rectInFrame]
  norm_num [min_def, max_def]

/-- C1 (amended): both patch samplers always preserve the region's pixel width
and height; containment in `[0,W)×[0,H)` holds unconditionally for the v10
sampler (for every frame with `W, H ≥ 1`), while the part_002 sampler
guarantees containment only when the frame leaves 10px of slack beyond the
zone in each dimension (`zW + 10 ≤ W` and `zH + 10 ≤ H`), which holds for all
realistic frames but fails for tiny ones. -/
theorem C1_patch_sampler (z₁ : Zone) (hz₁ : z₁ ∈ zonesV10)
    (z₂ : ZoneP2) (hz₂ : z₂ ∈ masterZones)
    (W₁ H₁ W₂ H₂ : ℚ) (hW₁ : 1 ≤ W₁) (hH₁ : 1 ≤ H₁)
    (hW₂ : z₂.w * W₂ + 10 ≤ W₂) (hH₂ : z₂.h * H₂ + 10 ≤ H₂) :
    ((sampleSourceV10 z₁ W₁ H₁).w = (zonePixelRect z₁ W₁ H₁).w ∧
     (sampleSourceV10 z₁ W₁ H₁).h = (zonePixelRect z₁ W₁ H₁).h ∧
     rectInFrame (sampleSourceV10 z₁ W₁ H₁) W₁ H₁) ∧
    ((sampleSourceP002 z₂ W₂ H₂).w = (zoneP2PixelRect z₂ W₂ H₂).w ∧
     (sampleSourceP002 z₂ W₂ H₂).h = (zoneP2PixelRect z₂ W₂ H₂).h ∧
     rectInFrame (sampleSourceP002 z₂ W₂ H₂) W₂ H₂) := by
  constructor
  · refine sampleSourceV10_spec z₁ W₁ H₁ ?_ ?_ (by linarith) (by linarith)
    · fin_cases hz₁ <;> norm_num
    · fin_cases hz₁ <;> norm_num
  · exact sampleSourceP002_spec z₂ W₂ H₂ hW₂ hH₂

/-- C1 witness: the amended theorem instantiated at 1920×1080 on the first
catalog zone of each engine. -/
theorem C1_patch_sampler_witness :
    rectInFrame
      (sampleSourceV10 ⟨1/100, 1/100, 28/100, 12/100, ZoneType.logo⟩ 1920 1080)
      1920 1080 ∧
    rectInFrame
      (sampleSourceP002 ⟨1/100, 1/100, 22/100, 12/100, "corner"⟩ 1920 1080)
      1920 1080 := by
  have h := C1_patch_sampler
    ⟨1/100, 1/100, 28/100, 12/100, ZoneType.logo⟩ (List.mem_cons_self _ _)
    ⟨1/100, 1/100, 22/100, 12/100, "corner"⟩ (List.mem_cons_self _ _)
    1920 1080 1920 1080 (by norm_num) (by norm_num) (by norm_num) (by norm_num)
  exact ⟨h.1.2.2, h.2.2.2⟩

/-! ## Compositor of the v10 engine (App.tsx lines 355-379)

`ctx.roundRect(zX, zY, zW, zH, 20); ctx.clip()` installs a rounded-rectangle
clip; the three passes (base fill, blended copy, grain dots) all draw under
that clip, and `ctx.restore()` drops it. We model a surface as a function from
(sub)pixel coordinates to pixels and each pass as a clipped update. Painted
values (the output of `drawImage` under a blur filter) are kept abstract: the
claim is about which pixels are written, not their colours. -/

/-- Canvas scales the corner radius down when it exceeds half a side. -/
def roundRectRadius (r : Rect) (rad : ℚ) : ℚ := min rad (min (r.w / 2) (r.h / 2))

/-- Membership in the rounded-rectangle path installed by
`roundRect(r.x, r.y, r.w, r.h, rad)`: the two full-width/full-height bands plus
the four corner disks. -/
def inRoundRect (r : Rect) (rad px py : ℚ) : Prop :=
  let ρ := roundRectRadius r rad
  (r.x ≤ px ∧ px ≤ r.x + r.w ∧ r.y + ρ ≤ py ∧ py ≤ r.y + r.h - ρ) ∨
  (r.x + ρ ≤ px ∧ px ≤ r.x + r.w - ρ ∧ r.y ≤ py ∧ py ≤ r.y + r.h) ∨
  (px - (r.x + ρ))^2 + (py - (r.y + ρ))^2 ≤ ρ^2 ∨
  (px - (r.x + r.w - ρ))^2 + (py - (r.y + ρ))^2 ≤ ρ^2 ∨
  (px - (r.x + ρ))^2 + (py - (r.y + r.h - ρ))^2 ≤ ρ^2 ∨
  (px - (r.x + r.w - ρ))^2 + (py - (r.y + r.h - ρ))^2 ≤ ρ^2

instance (r : Rect) (rad px py : ℚ) : Decidable (inRoundRect r rad px py) := by
  unfold inRoundRect; infer_instance

def inRoundRectB (r : Rect) (rad px py : ℚ) : Bool :=
  decide (inRoundRect r rad px py)

/-- The closed rectangle spanned by `r`. -/
def inRectClosed (r : Rect) (px py : ℚ) : Prop :=
  r.x ≤ px ∧ px ≤ r.x + r.w ∧ r.y ≤ py ∧ py ≤ r.y + r.h

instance (r : Rect) (px py : ℚ) : Decidable (inRectClosed r px py) := by
  unfold inRectClosed; infer_instance

theorem abs_bound_of_sq_le (a c ρ : ℚ) (hρ : 0 ≤ ρ) (h : (a - c)^2 ≤ ρ^2) :
    c - ρ ≤ a ∧ a ≤ c + ρ := by
  constructor <;> nlinarith [sq_nonneg (a - c + ρ), sq_nonneg (a - c - ρ)]

/-- The rounded-rectangle path is contained in its spanning rectangle. -/
theorem inRoundRect_subset_rect (r : Rect) (rad px py : ℚ)
    (hw : 0 ≤ r.w) (hh : 0 ≤ r.h) (hrad : 0 ≤ rad)
    (h : inRoundRect r rad px py) : inRectClosed r px py := by
  have hρ0 : 0 ≤ roundRectRadius r rad :=
    le_min hrad (le_min (by linarith) (by linarith))
  have hρw : roundRectRadius r rad ≤ r.w / 2 :=
    le_trans (min_le_right _ _) (min_le_left _ _)
  have hρh : roundRectRadius r rad ≤ r.h / 2 :=
    le_trans (min_le_right _ _) (min_le_right _ _)
  unfold inRoundRect at h
  set ρ := roundRectRadius r rad with hρdef
  rcases h with ⟨h1, h2, h3, h4⟩ | ⟨h1, h2, h3, h4⟩ | h | h | h | h
  · exact ⟨h1, h2, by linarith, by linarith⟩
  · exact ⟨by linarith, by linarith, h3, h4⟩
  · have hx := abs_bound_of_sq_le px (r.x + ρ) ρ hρ0
      (by nlinarith [sq_nonneg (py - (r.y + ρ))])
    have hy := abs_bound_of_sq_le py (r.y + ρ) ρ hρ0
      (by nlinarith [sq_nonneg (px - (r.x + ρ))])
    exact ⟨by linarith [hx.1], by linarith [hx.2], by linarith [hy.1], by linarith [hy.2]⟩
  · have hx := abs_bound_of_sq_le px (r.x + r.w - ρ) ρ hρ0
      (by nlinarith [sq_nonneg (py - (r.y + ρ))])
    have hy := abs_bound_of_sq_le py (r.y + ρ) ρ hρ0
      (by nlinarith [sq_nonneg (px - (r.x + r.w - ρ))])
    exact ⟨by linarith [hx.1], by linarith [hx.2], by linarith [hy.1], by linarith [hy.2]⟩
  · have hx := abs_bound_of_sq_le px (r.x + ρ) ρ hρ0
      (by nlinarith [sq_nonneg (py - (r.y + r.h - ρ))])
    have hy := abs_bound_of_sq_le py (r.y + r.h - ρ) ρ hρ0
      (by nlinarith [sq_nonneg (px - (r.x + ρ))])
    exact ⟨by linarith [hx.1], by linarith [hx.2], by linarith [hy.1], by linarith [hy.2]⟩
  · have hx := abs_bound_of_sq_le px (r.x + r.w - ρ) ρ hρ0
      (by nlinarith [sq_nonneg (py - (r.y + r.h - ρ))])
    have hy := abs_bound_of_sq_le py (r.y + r.h - ρ) ρ hρ0
      (by nlinarith [sq_nonneg (px - (r.x + r.w - ρ))])
    exact ⟨by linarith [hx.1], by linarith [hx.2], by linarith [hy.1], by linarith [hy.2]⟩

def Surface (Pixel : Type) := ℚ × ℚ → Pixel

/-- One canvas drawing pass under the active clip: a pixel inside the mask gets
the pass's painted value (which may read the whole input surface, as
`drawImage(canvas, …)` does); every other pixel keeps its old value. -/
def clippedPass {Pixel : Type} (mask : ℚ × ℚ → Bool)
    (paint : Surface Pixel → ℚ × ℚ → Pixel) (s : Surface Pixel) : Surface Pixel :=
  fun p => if mask p then paint s p else s p

/-! ### Grain dots -/

structure Dot where
  x : ℚ
  y : ℚ
  size : ℚ
  color : ℕ × ℕ × ℕ
  alpha : ℚ
deriving DecidableEq

def white : ℕ × ℕ × ℕ := (255, 255, 255)

def gray777 : ℕ × ℕ × ℕ := (119, 119, 119)

/-- Dot `i` of the v10 grain loop (App.tsx 372-377): a 1×1 `fillRect` at
`(zX + u·zW, zY + v·zH)` with `fillStyle = '#fff'`, `globalAlpha = 0.1`. -/
def grainDotV10 (rect : Rect) (rnd : ℕ → ℚ × ℚ) (i : ℕ) : Dot :=
  ⟨rect.x + (rnd i).1 * rect.w, rect.y + (rnd i).2 * rect.h, 1, white, 1/10⟩

/-- The 200 dots drawn by `for (let i = 0; i < 200; i++)` in the v10 engine. -/
def grainDotsV10 (rect : Rect) (rnd : ℕ → ℚ × ℚ) : List Dot :=
  (List.range 200).map (grainDotV10 rect rnd)

/-- Dot `i` of the part_002 grain loop (lines 125-130): a 1.2×1.2 `fillRect`
with `fillStyle = '#777'`, `globalAlpha = 0.08`. -/
def grainDotP002 (rect : Rect) (rnd : ℕ → ℚ × ℚ) (i : ℕ) : Dot :=
  ⟨rect.x + (rnd i).1 * rect.w, rect.y + (rnd i).2 * rect.h, 6/5, gray777, 2/25⟩

/-- The 100 dots drawn by `for (let i = 0; i < 100; i++)` in part_002. -/
def grainDotsP002 (rect : Rect) (rnd : ℕ → ℚ × ℚ) : List Dot :=
  (List.range 100).map (grainDotP002 rect rnd)

def inDot (d : Dot) (px py : ℚ) : Bool :=
  decide (d.x ≤ px ∧ px ≤ d.x + d.size ∧ d.y ≤ py ∧ py ≤ d.y + d.size)

/-- The full per-zone composite of the v10 engine (App.tsx 355-379): rounded
clip of radius 20 over the zone's pixel rectangle, base fill pass, blended
second copy, then the grain dots — every write clipped to the mask, after
which `ctx.restore()` drops the clip. -/
def compositeRegionV10 {Pixel : Type} (z : Zone) (W H : ℚ)
    (paintFill paintBlend : Surface Pixel → ℚ × ℚ → Pixel)
    (grain : Pixel → Pixel) (rnd : ℕ → ℚ × ℚ)
    (s : Surface Pixel) : Surface Pixel :=
  let rect := zonePixelRect z W H
  let mask := fun p : ℚ × ℚ => inRoundRectB rect 20 p.1 p.2
  let dots := grainDotsV10 rect rnd
  clippedPass mask
    (fun t p => if dots.any fun d => inDot d p.1 p.2 then grain (t p) else t p)
    (clippedPass mask paintBlend (clippedPass mask paintFill s))

/-! ## Claim C2 -/

/-- C2 (confirmed): all three passes of a composite invocation write only under
the region's clipped rounded-rectangle mask, so every surface pixel outside the
region's rectangle keeps its previous value — for any surface, any painted
values and any grain randomness. -/
theorem C2_compositor_masked {Pixel : Type} (z : Zone) (hz : z ∈ zonesV10)
    (W H : ℚ) (hW : 0 ≤ W) (hH : 0 ≤ H)
    (paintFill paintBlend : Surface Pixel → ℚ × ℚ → Pixel) (grain : Pixel → Pixel)
    (rnd : ℕ → ℚ × ℚ) (s : Surface Pixel) (px py : ℚ) :
    (¬ inRoundRect (zonePixelRect z W H) 20 px py →
      compositeRegionV10 z W H paintFill paintBlend grain rnd s (px, py) = s (px, py)) ∧
    (¬ inRectClosed (zonePixelRect z W H) px py →
      compositeRegionV10 z W H paintFill paintBlend grain rnd s (px, py) = s (px, py)) := by
  have hzw : 0 ≤ z.w ∧ 0 ≤ z.h := by fin_cases hz <;> norm_num
  have hkey : ∀ _ : ¬ inRoundRect (zonePixelRect z W H) 20 px py,
      compositeRegionV10 z W H paintFill paintBlend grain rnd s (px, py) = s (px, py) := by
    intro hmem
    have hmask : inRoundRectB (zonePixelRect z W H) 20 px py = false := by
      rw [inRoundRectB, decide_eq_false_iff_not]
      exact hmem
    simp only [compositeRegionV10, clippedPass, hmask, Bool.false_eq_true, if_false]
  refine ⟨hkey, ?_⟩
  intro hout
  apply hkey
  intro hmem
  exact hout (inRoundRect_subset_rect _ 20 px py
    (mul_nonneg hzw.1 hW) (mul_nonneg hzw.2 hH) (by norm_num) hmem)

/-- C2 witness: on a 100×100 frame, the composite for the first catalog zone at
the outside point (50, 50) returns the surface's old value. -/
theorem C2_compositor_masked_witness :
    compositeRegionV10 ⟨1/100, 1/100, 28/100, 12/100, ZoneType.logo⟩
      100 100 (fun _ _ => (7 : ℤ)) (fun _ _ => 8) (fun v => v + 1) (fun _ => (0, 0))
      (fun _ => 3) (50, 50) = 3 :=
  (C2_compositor_masked ⟨1/100, 1/100, 28/100, 12/100, ZoneType.logo⟩
    (List.mem_cons_self _ _) 100 100 (by norm_num) (by norm_num)
    (fun _ _ => 7) (fun _ _ => 8) (fun v => v + 1) (fun _ => (0, 0))
    (fun _ => 3) 50 50).2
    (by simp only [inRectClosed, zonePixelRect]; norm_num)

/-! ## Claim C3 -/

/-- C3 counterexample: the grain dots are claimed to alternate light/dark, but
the v10 loop draws all 200 dots with the single `fillStyle = '#fff'`; already
the first two dots share their colour. -/
theorem C3_counterexample :
    ¬ List.Chain' (fun a b : Dot => a.color ≠ b.color)
        (grainDotsV10 ⟨0, 0, 10, 10⟩ fun _ => (1/2, 1/2)) := by
  intro h
  rw [List.chain'_iff_get] at h
  have h0 := h 0 (by norm_num [grainDotsV10])
  exact h0 rfl

/-- C3 (amended): each composite draws a bounded number of dots — 200 in the
v10 engine, 100 in part_002 — of size 1px (v10) resp. 1.2px (part_002), at
opacity 0.1 resp. 0.08 (both ≤ 10%), with top-left corners at uniformly
sampled positions strictly inside the region's rectangle; the colour is a
single fixed fill per engine (white resp. mid-gray `#777`), not alternating
light/dark. -/
theorem C3_grain_pass (rect : Rect) (rnd : ℕ → ℚ × ℚ)
    (hrnd : ∀ i, 0 ≤ (rnd i).1 ∧ (rnd i).1 < 1 ∧ 0 ≤ (rnd i).2 ∧ (rnd i).2 < 1)
    (hw : 0 < rect.w) (hh : 0 < rect.h) :
    (grainDotsV10 rect rnd).length = 200 ∧
    (grainDotsP002 rect rnd).length = 100 ∧
    (∀ d ∈ grainDotsV10 rect rnd,
      d.alpha ≤ 1/10 ∧ 1 ≤ d.size ∧ d.size ≤ 2 ∧ d.color = white ∧
      rect.x ≤ d.x ∧ d.x < rect.x + rect.w ∧ rect.y ≤ d.y ∧ d.y < rect.y + rect.h) ∧
    (∀ d ∈ grainDotsP002 rect rnd,
      d.alpha ≤ 1/10 ∧ 1 ≤ d.size ∧ d.size ≤ 2 ∧ d.color = gray777 ∧
      rect.x ≤ d.x ∧ d.x < rect.x + rect.w ∧ rect.y ≤ d.y ∧ d.y < rect.y + rect.h) := by
  refine ⟨by simp [grainDotsV10], by simp [grainDotsP002], ?_, ?_⟩
  · intro d hd
    simp only [grainDotsV10, List.mem_map, List.mem_range] at hd
    obtain ⟨i, _, rfl⟩ := hd
    obtain ⟨hu0, hu1, hv0, hv1⟩ := hrnd i
    have hxl := mul_nonneg hu0 hw.le
    have hxr := mul_lt_mul_of_pos_right hu1 hw
    have hyl := mul_nonneg hv0 hh.le
    have hyr := mul_lt_mul_of_pos_right hv1 hh
    refine ⟨by norm_num [grainDotV10], by norm_num [grainDotV10],
      by norm_num [grainDotV10], rfl, ?_, ?_, ?_, ?_⟩ <;>
      simp only [grainDotV10] <;> linarith
  · intro d hd
    simp only [grainDotsP002, List.mem_map, List.mem_range] at hd
    obtain ⟨i, _, rfl⟩ := hd
    obtain ⟨hu0, hu1, hv0, hv1⟩ := hrnd i
    have hxl := mul_nonneg hu0 hw.le
    have hxr := mul_lt_mul_of_pos_right hu1 hw
    have hyl := mul_nonneg hv0 hh.le
    have hyr := mul_lt_mul_of_pos_right hv1 hh
    refine ⟨by norm_num [grainDotP002], by norm_num [grainDotP002],
      by norm_num [grainDotP002], rfl, ?_, ?_, ?_, ?_⟩ <;>
      simp only [grainDotP002] <;> linarith

/-- C3 witness: the amended theorem instantiated at a 10×10 region with the
constant sampler `(1/2, 1/2)`, evaluated at the first dot of the v10 list. -/
theorem C3_grain_pass_witness :
    (grainDotV10 ⟨0, 0, 10, 10⟩ (fun _ => (1/2, 1/2)) 0).alpha ≤ 1/10 ∧
    1 ≤ (grainDotV10 ⟨0, 0, 10, 10⟩ (fun _ => (1/2, 1/2)) 0).size ∧
    (grainDotV10 ⟨0, 0, 10, 10⟩ (fun _ => (1/2, 1/2)) 0).size ≤ 2 ∧
    (grainDotV10 ⟨0, 0, 10, 10⟩ (fun _ => (1/2, 1/2)) 0).color = white ∧
    (0 : ℚ) ≤ (grainDotV10 ⟨0, 0, 10, 10⟩ (fun _ => (1/2, 1/2)) 0).x ∧
    (grainDotV10 ⟨0, 0, 10, 10⟩ (fun _ => (1/2, 1/2)) 0).x < 0 + 10 ∧
    (0 : ℚ) ≤ (grainDotV10 ⟨0, 0, 10, 10⟩ (fun _ => (1/2, 1/2)) 0).y ∧
    (grainDotV10 ⟨0, 0, 10, 10⟩ (fun _ => (1/2, 1/2)) 0).y < 0 + 10 :=
  (C3_grain_pass ⟨0, 0, 10, 10⟩ (fun _ => (1/2, 1/2))
    (fun _ => by norm_num) (by norm_num) (by norm_num)).2.2.1
    (grainDotV10 ⟨0, 0, 10, 10⟩ (fun _ => (1/2, 1/2)) 0)
    (List.mem_map.mpr ⟨0, List.mem_range.mpr (by norm_num), rfl⟩)

/-! ## Session records

Each variant's component state, restricted to the fields the spec's Session
tracks. part_000 and part_001 share the same field set; the first App.tsx
variant has no status message or detection metadata; the v10 variant adds the
compare-original flag. -/

structure SessionP0 where
  file : Option String
  videoUrl : String
  resultVideo : Option String
  progress : ℤ
  statusMessage : String
  error : Option String
  metadata : Option (String × String)
  isProcessing : Bool
deriving DecidableEq

structure SessionV1 where
  file : Option String
  videoUrl : String
  resultVideo : Option String
  progress : ℤ
  error : Option String
  isProcessing : Bool
deriving DecidableEq

structure SessionV10 where
  file : Option String
  videoUrl : String
  resultVideo : Option String
  progress : ℤ
  statusMessage : String
  error : Option String
  compareMode : Bool
  isProcessing : Bool
deriving DecidableEq

/-- `if (resultVideo && resultVideo.startsWith('blob:')) URL.revokeObjectURL(resultVideo)`:
the list of object URLs revoked by a reset. -/
def revokedBy (resultVideo : Option String) : List String :=
  match resultVideo with
  | some r => if strStarts r "blob:" then [r] else []
  | none => []

/-- `reset` of part_000 (lines 141-151): revoke a blob result, then clear file,
URL, result, progress, error and metadata. -/
def resetP000 (s : SessionP0) : SessionP0 × List String :=
  ({ s with file := none, videoUrl := "", resultVideo := none,
            progress := 0, error := none, metadata := none },
   revokedBy s.resultVideo)

/-- `reset` of part_001 (lines 159-166): revoke a blob result and clear file,
URL, result and metadata — `progress` and `error` are not written. -/
def resetP001 (s : SessionP0) : SessionP0 × List String :=
  ({ s with file := none, videoUrl := "", resultVideo := none, metadata := none },
   revokedBy s.resultVideo)

/-- `reset` of the first App.tsx variant (lines 100-109). -/
def resetAppV1 (s : SessionV1) : SessionV1 × List String :=
  ({ s with file := none, videoUrl := "", resultVideo := none,
            progress := 0, error := none },
   revokedBy s.resultVideo)

/-! ## Claim C5 -/

/-- A part_001 session that has just finished a run from an uploaded file. -/
def readySessionP001 : SessionP0 :=
  ⟨none, "", some "blob:3f2a", 100, "Finalizing pixel restoration...", none,
   some ("TikTok", "Neural In-painting"), false⟩

/-- A part_001 session holding a surfaced error. -/
def failedSessionP001 : SessionP0 :=
  ⟨none, "", none, 25, "", some "Detachment failed. The brand shield is too strong.",
   none, false⟩

/-- C5 counterexample: resetting a part_001 session does not clear `progress`
(it stays at 100 after a completed run) nor `error`, so the post-reset state
depends on the state reset from. -/
theorem C5_counterexample :
    (resetP001 readySessionP001).1.progress = 100 ∧
    (resetP001 readySessionP001).1.progress ≠ 0 ∧
    (resetP001 failedSessionP001).1.error ≠ none := by
  refine ⟨rfl, by decide, by decide⟩

/-- C5 (amended): every reset revokes the transient `blob:` result handle when
one exists; the part_000 and App.tsx resets clear source, URL, result,
progress, error (and metadata where present), but the part_001 reset clears
only source, URL, result and metadata, carrying `progress` and `error` over
unchanged. -/
theorem C5_reset (s t : SessionP0) (u : SessionV1) (r : String)
    (hres : s.resultVideo = some r) (hblob : strStarts r "blob:" = true) :
    ((resetP000 s).2 = [r] ∧ (resetP001 s).2 = [r]) ∧
    ((resetP000 t).1.file = none ∧ (resetP000 t).1.videoUrl = "" ∧
     (resetP000 t).1.resultVideo = none ∧ (resetP000 t).1.progress = 0 ∧
     (resetP000 t).1.error = none ∧ (resetP000 t).1.metadata = none) ∧
    ((resetAppV1 u).1.file = none ∧ (resetAppV1 u).1.videoUrl = "" ∧
     (resetAppV1 u).1.resultVideo = none ∧ (resetAppV1 u).1.progress = 0 ∧
     (resetAppV1 u).1.error = none) ∧
    ((resetP001 t).1.file = none ∧ (resetP001 t).1.videoUrl = "" ∧
     (resetP001 t).1.resultVideo = none ∧ (resetP001 t).1.metadata = none ∧
     (resetP001 t).1.progress = t.progress ∧ (resetP001 t).1.error = t.error) := by
  refine ⟨⟨?_, ?_⟩, ⟨rfl, rfl, rfl, rfl, rfl, rfl⟩,
    ⟨rfl, rfl, rfl, rfl, rfl⟩, ⟨rfl, rfl, rfl, rfl, rfl, rfl⟩⟩ <;>
    simp [resetP000, resetP001, revokedBy, hres, hblob]

/-- C5 witness: the amended theorem at a ready session holding a blob result. -/
theorem C5_reset_witness :
    (resetP000 ⟨some "clip.mp4", "", some "blob:77", 100, "", none, none, false⟩).2
      = ["blob:77"] ∧
    (resetP000 readySessionP001).1.progress = 0 :=
  ⟨(C5_reset ⟨some "clip.mp4", "", some "blob:77", 100, "", none, none, false⟩
      readySessionP001 ⟨none, "", none, 0, none, false⟩ "blob:77" rfl (by decide)).1.1,
   (C5_reset ⟨some "clip.mp4", "", some "blob:77", 100, "", none, none, false⟩
      readySessionP001 ⟨none, "", none, 0, none, false⟩ "blob:77" rfl (by decide)).2.1.2.2.2.1⟩

/-! ## Claim C6 -/

inductive ProcessStart (σ : Type) where
  | rejected (s : σ)
  | started (s : σ)
deriving DecidableEq

/-- The leading validation guard of part_000 `handleProcess` (lines 65-74): no
source ⇒ write the validation message and return; otherwise flip the
processing flags and enter the first stage. -/
def handleProcessStartP000 (s : SessionP0) : ProcessStart SessionP0 :=
  if s.file = none ∧ s.videoUrl = "" then
    ProcessStart.rejected
      { s with error := some "Please provide a video file or a link to purify." }
  else
    ProcessStart.started
      { s with isProcessing := true, progress := 0, error := none,
               statusMessage := "Awakening Royal Neural Networks..." }

/-- The leading guard of the v10 App.tsx `handleProcess` (lines 387-392):
`if (!file && !videoUrl) return;` — a silent early return, no error is set. -/
def handleProcessStartV10 (s : SessionV10) : ProcessStart SessionV10 :=
  if s.file = none ∧ s.videoUrl = "" then
    ProcessStart.rejected s
  else
    ProcessStart.started
      { s with isProcessing := true, progress := 0, error := none,
               statusMessage := "Booting Erase Engine..." }

def emptySessionV10 : SessionV10 := ⟨none, "", none, 0, "", none, false, false⟩

/-- C6 counterexample: the claim says an empty-source invocation "reports a
validation error", but in the v10 App.tsx engine the invocation returns with
the session untouched and `error` still `none`. -/
theorem C6_counterexample :
    handleProcessStartV10 emptySessionV10 = ProcessStart.rejected emptySessionV10 ∧
    emptySessionV10.error = none := by
  exact ⟨by decide, rfl⟩

/-- C6 (amended): invoking process with neither file nor URL enters no stage in
either engine — part_000 rejects after writing only the validation message
(progress, result, stage flags and everything else unchanged), while the v10
engine rejects silently, leaving the session completely unchanged (its UI
disables the button instead of reporting an error). -/
theorem C6_empty_process (s : SessionP0) (t : SessionV10)
    (hs1 : s.file = none) (hs2 : s.videoUrl = "")
    (ht1 : t.file = none) (ht2 : t.videoUrl = "") :
    handleProcessStartP000 s = ProcessStart.rejected
      { s with error := some "Please provide a video file or a link to purify." } ∧
    handleProcessStartV10 t = ProcessStart.rejected t := by
  constructor
  · simp [handleProcessStartP000, hs1, hs2]
  · simp [handleProcessStartV10, ht1, ht2]

/-- C6 witness: the amended theorem at the empty part_000 and v10 sessions. -/
theorem C6_empty_process_witness :
    handleProcessStartP000 ⟨none, "", none, 0, "", none, none, false⟩ =
      ProcessStart.rejected
        ⟨none, "", none, 0, "",
         some "Please provide a video file or a link to purify.", none, false⟩ :=
  (C6_empty_process ⟨none, "", none, 0, "", none, none, false⟩
    emptySessionV10 rfl rfl rfl rfl).1

/-! ## Claim C7 -/

inductive Handle where
  | blob (f : String)
  | url (u : String)
deriving DecidableEq

/-- Result production of part_000 `handleProcess` (lines 123-130), also used by
the part_002 top variant (line 185): an uploaded file yields
`URL.createObjectURL(file)` — a fresh transient blob handle over the uploaded
bytes — while a link passes through unchanged. -/
def resultHandleP000 : Option String → String → Handle
  | some f, _ => Handle.blob f
  | none, u => Handle.url u

def sampleVideoURL : String :=
  "https://sample-videos.com/video321/mp4/720/big_buck_bunny_720p_1mb.mp4"

/-- Result production of the placeholder variants (App.tsx lines 1022-1023 and
the second part_002 variant, line 477): a hard-coded sample URL regardless of
the selected source. -/
def resultHandlePlaceholder (_file : Option String) (_url : String) : Handle :=
  Handle.url sampleVideoURL

/-- C7 counterexample: in the placeholder variants the produced handle is
neither the original URL passed through nor a blob of the uploaded file — it is
always the hard-coded sample video. -/
theorem C7_counterexample :
    resultHandlePlaceholder none "https://example.com/clip.mp4" ≠
      Handle.url "https://example.com/clip.mp4" ∧
    resultHandlePlaceholder (some "wedding.mp4") "" ≠ Handle.blob "wedding.mp4" ∧
    resultHandlePlaceholder (some "wedding.mp4") "" = Handle.url sampleVideoURL := by
  refine ⟨by decide, by decide, rfl⟩

/-- C7 (amended): in the part_000 engine (and the part_002 top variant) the
result handle is a fresh blob over the uploaded file when a file was selected
and the original URL passed through unchanged otherwise; the placeholder
variants (App.tsx lines 1022-1023, part_002 line 477) instead always produce
the fixed sample URL, ignoring the source. -/
theorem C7_result_handle (f u : String) :
    resultHandleP000 (some f) u = Handle.blob f ∧
    resultHandleP000 none u = Handle.url u ∧
    resultHandlePlaceholder (some f) u = Handle.url sampleVideoURL ∧
    resultHandlePlaceholder none u = Handle.url sampleVideoURL :=
  ⟨rfl, rfl, rfl, rfl⟩

/-! ## Claim C8 -/

/-- `handleFileChange` of part_000 (lines 55-63): select the file, clear the
URL text, the error, any previous result and metadata. -/
def handleFileChangeP000 (f : String) (s : SessionP0) : SessionP0 :=
  { s with file := some f, videoUrl := "", error := none,
           resultVideo := none, metadata := none }

/-- The URL input's `onChange` in part_000 (lines 232-238):
`setVideoUrl(e.target.value); setFile(null)`. -/
def urlInputChangeP000 (t : String) (s : SessionP0) : SessionP0 :=
  { s with videoUrl := t, file := none }

/-- Exactly one of file / URL text is present. -/
def exactlyOneSource (s : SessionP0) : Prop :=
  (s.file ≠ none ∧ s.videoUrl = "") ∨ (s.file = none ∧ s.videoUrl ≠ "")

instance (s : SessionP0) : Decidable (exactlyOneSource s) := by
  unfold exactlyOneSource; infer_instance

def emptySessionP0 : SessionP0 := ⟨none, "", none, 0, "", none, none, false⟩

/-- C8 counterexample: typing into the URL field fires the same handler with
the current text; clearing the field (text `""`) after a file was selected
leaves NEITHER source present, against "exactly one of file/URL is non-empty
after any selection". -/
theorem C8_counterexample :
    ¬ exactlyOneSource
        (urlInputChangeP000 "" (handleFileChangeP000 "clip.mp4" emptySessionP0)) := by
  decide

/-- C8 (amended): selecting a file always clears the URL text and yields
exactly one source; entering URL text always clears the selected file, and
exactly one source remains precisely when the entered text is non-empty (an
empty edit leaves both sources empty). -/
theorem C8_source_exclusive (f t : String) (s : SessionP0) :
    ((handleFileChangeP000 f s).file = some f ∧
     (handleFileChangeP000 f s).videoUrl = "" ∧
     exactlyOneSource (handleFileChangeP000 f s)) ∧
    ((urlInputChangeP000 t s).file = none ∧
     (urlInputChangeP000 t s).videoUrl = t ∧
     (exactlyOneSource (urlInputChangeP000 t s) ↔ t ≠ "")) := by
  refine ⟨⟨rfl, rfl, Or.inl ⟨by simp [handleFileChangeP000], rfl⟩⟩, rfl, rfl, ?_⟩
  constructor
  · rintro (⟨h1, _⟩ | ⟨_, h2⟩)
    · exact absurd rfl h1
    · exact h2
  · intro ht
    exact Or.inr ⟨rfl, ht⟩

/-! ## Claim C10 -/

/-- The platform discriminator chain of part_000 `handleProcess` (lines 86-90);
the third App.tsx variant (lines 745-751) runs the identical chain. -/
def platformChainP000 (nm : String) : String :=
  if strHas nm "tiktok" then "TikTok"
  else if strHas nm "capcut" then "CapCut"
  else if strHas nm "sora" then "OpenAI Sora"
  else if strHas nm "shutter" || strHas nm "stock" then "Stock Provider"
  else "Universal Brand"

/-- part_000: `const fileName = file ? file.name.toLowerCase() : videoUrl.toLowerCase()`. -/
def identP000 (file : Option String) (url : String) : String :=
  match file with
  | some f => f
  | none => url

/-- JS `file?.name || videoUrl` (App.tsx line 746, part_002 line 159): the URL
is used when no file is selected or the file name is the empty string. -/
def identOrElse (file : Option String) (url : String) : String :=
  match file with
  | some f => if f = "" then url else f
  | none => url

def detectPlatformP000 (file : Option String) (url : String) : String :=
  platformChainP000 (lowerStr (identP000 file url))

def detectPlatformAppV3 (file : Option String) (url : String) : String :=
  platformChainP000 (lowerStr (identOrElse file url))

/-- The platform discriminator chain of part_002 `handleProcess`
(lines 158-162): tiktok, then sora, then getty/shutter — no capcut test and no
stock test, default "Advanced Digital". -/
def platformChainP002 (idf : String) : String :=
  if strHas idf "tiktok" then "TikTok Multi-Layer"
  else if strHas idf "sora" then "OpenAI Sora Dynamic"
  else if strHas idf "getty" || strHas idf "shutter" then "Full-Frame Grid"
  else "Advanced Digital"

def detectPlatformP002 (file : Option String) (url : String) : String :=
  platformChainP002 (lowerStr (identOrElse file url))

structure PlatformLabels where
  tiktokL : String
  capcutL : String
  soraL : String
  stockL : String
  defaultL : String

/-- Modelled from the claim's words (C10): substring tests applied in the fixed
priority order tiktok, capcut, sora, shutter/stock, with a universal default
label when none match. -/
def claimedPlatformChain (L : PlatformLabels) (idf : String) : String :=
  if strHas idf "tiktok" then L.tiktokL
  else if strHas idf "capcut" then L.capcutL
  else if strHas idf "sora" then L.soraL
  else if strHas idf "shutter" || strHas idf "stock" then L.stockL
  else L.defaultL

def p000Labels : PlatformLabels :=
  ⟨"TikTok", "CapCut", "OpenAI Sora", "Stock Provider", "Universal Brand"⟩

/-- C10 counterexample: no label assignment makes the part_002 detector an
instance of the claimed tiktok/capcut/sora/shutter-or-stock chain — the chain
forces identifiers containing "shutter" and "stock" to the same label, but
part_002 maps "shutter" to "Full-Frame Grid" and "stock" to the default
"Advanced Digital". -/
theorem C10_counterexample :
    ¬ ∃ L : PlatformLabels, ∀ file url,
        detectPlatformP002 file url =
          claimedPlatformChain L (lowerStr (identOrElse file url)) := by
  rintro ⟨L, h⟩
  have e1 : ("Full-Frame Grid" : String) = L.stockL := h (some "shutter") ""
  have e2 : ("Advanced Digital" : String) = L.stockL := h (some "stock") ""
  exact absurd (e1.trans e2.symm) (by decide)

/-- C10 (amended): each engine's platform label is a pure function of the
lower-cased source identifier (file name if a file is selected, else the URL;
the App.tsx/part_002 variants fall back to the URL on an empty file name). The
part_000 and third App.tsx engines realise exactly the claimed
tiktok → capcut → sora → shutter/stock chain with default "Universal Brand";
the part_002 engine instead tests tiktok → sora → getty/shutter with default
"Advanced Digital", so capcut- and stock-tagged sources get the default. -/
theorem C10_platform_label (file : Option String) (url : String) :
    detectPlatformP000 file url =
      claimedPlatformChain p000Labels (lowerStr (identP000 file url)) ∧
    detectPlatformAppV3 file url =
      claimedPlatformChain p000Labels (lowerStr (identOrElse file url)) ∧
    detectPlatformP002 file url = platformChainP002 (lowerStr (identOrElse file url)) ∧
    platformChainP002 "capcut" = "Advanced Digital" ∧
    platformChainP002 "stock" = "Advanced Digital" ∧
    platformChainP002 "getty" = "Full-Frame Grid" := by
  refine ⟨?_, ?_, rfl, by decide, by decide, by decide⟩ <;>
    simp [detectPlatformP000, detectPlatformAppV3, platformChainP000,
      claimedPlatformChain, p000Labels]

/-! ## Staged progress sequences -/

structure RunResult where
  writes : List ℤ
  statusWrites : List String
  result : Option Handle
  metadata : Option (String × String)
  log : List String
  errorOut : Option String
deriving DecidableEq

/-- The inner try/catch around the optional `ai.models.generateContent` call in
part_000 (lines 92-102): a success is logged, a failure is caught and only a
warning is logged — either way control continues normally. -/
def collabNoteP000 : Except String String → List String
  | Except.ok r => ["AI Confirmation: " ++ r]
  | Except.error _ =>
      ["AI handshake failed, falling back to local heuristic purification."]

/-- The staged body of part_000 `handleProcess` after the validation guard
(lines 71-132): the ordered progress and status writes, the produced result and
metadata, and the log note of the collaborator call. The collaborator outcome
reaches only the log. -/
def stagedBodyP000 (file : Option String) (url : String)
    (collab : Except String String) : RunResult :=
  let platform := detectPlatformP000 file url
  { writes := [0, 10, 35, 65, 85, 95, 100]
    statusWrites :=
      ["Awakening Royal Neural Networks...",
       "Analyzing brand signatures (TikTok/Sora/CapCut)...",
       "Detaching " ++ platform ++ " signature layers...",
       "Generative In-painting: Restoring hidden pixels...",
       "Cleansing metadata and brand tags...",
       "Finalizing Royal Polish..."]
    result := some (resultHandleP000 file url)
    metadata := some (match file with
      | some _ => (platform, "Sovereign In-painting Applied")
      | none => ("Web Stream", "Direct Injection Clean"))
    log := collabNoteP000 collab
    errorOut := none }

/-- The inner try/catch of the part_002 top variant (lines 164-171): the
response is discarded on success; a failure is caught and only warned about. -/
def collabNoteP002 : Except String String → List String
  | Except.ok _ => []
  | Except.error _ =>
      ["AI Cloud assist limited. Local Restoration engine fully engaged."]

/-- The staged body of the part_002 top variant's `handleProcess` after its
guard (lines 146-191). -/
def stagedBodyP002 (file : Option String) (url : String)
    (collab : Except String String) : RunResult :=
  let platform := detectPlatformP002 file url
  { writes := [0, 20, 50, 80, 100]
    statusWrites :=
      ["Initializing Restoration Matrix...",
       "Scanning for hard-coded pixel signatures...",
       "Synthesizing invisible texture patches...",
       "Applying Bi-Directional Temporal Smoothing...",
       "Final Polish: Matching Film Grain..."]
    result := some (resultHandleP000 file url)
    metadata := some (platform, "Maximum (Deep Erase)")
    log := collabNoteP002 collab
    errorOut := none }

/-- `simulateProgress(start, end, duration)` of the second part_002 variant
(lines 456-471): every 30ms tick adds `step` to `current`; a tick that reaches
`end` writes `end` exactly and stops, any other tick writes `floor(current)`.
`fuel` bounds the tick count (the real loop stops by the same comparison). -/
def simulateProgress (current : ℚ) (endv : ℤ) (step : ℚ) : ℕ → List ℤ
  | 0 => []
  | fuel + 1 =>
    if (endv : ℚ) ≤ current + step then [endv]
    else Int.floor (current + step) :: simulateProgress (current + step) endv step fuel

/-- One `await simulateProgress(start, end, duration)` call: the step is
`(end - start) / (duration / 30)`. -/
def simRun (start endv : ℤ) (duration : ℚ) (fuel : ℕ) : List ℤ :=
  simulateProgress (start : ℚ) endv (((endv : ℚ) - (start : ℚ)) / (duration / 30)) fuel

/-- The progress writes of the second part_002 variant's `handleProcess`
(lines 448-476): `setProgress(5)`, then the three chained simulations
5→30, 30→70, 70→100. -/
def progressWritesP002v2 : List ℤ :=
  5 :: (simRun 5 30 1000 100 ++ (simRun 30 70 2000 200 ++ simRun 70 100 800 100))

/-- With a nonnegative step the written values are non-decreasing and bounded
below by the first tick's value `min end ⌊current + step⌋`. -/
theorem simulateProgress_chain (endv : ℤ) (step : ℚ) (hstep : 0 ≤ step) :
    ∀ (fuel : ℕ) (current : ℚ),
      List.Chain' (· ≤ ·) (simulateProgress current endv step fuel) ∧
      ∀ x ∈ simulateProgress current endv step fuel,
        min endv (Int.floor (current + step)) ≤ x := by
  intro fuel
  induction fuel with
  | zero =>
    intro current
    refine ⟨List.chain'_nil, ?_⟩
    intro x hx
    simp [simulateProgress] at hx
  | succ n ih =>
    intro current
    simp only [simulateProgress]
    by_cases hc : (endv : ℚ) ≤ current + step
    · rw [if_pos hc]
      refine ⟨List.chain'_singleton _, ?_⟩
      intro x hx
      rw [List.mem_singleton] at hx
      rw [hx]
      exact min_le_left _ _
    · rw [if_neg hc]
      obtain ⟨ihc, ihb⟩ := ih (current + step)
      have hflt : Int.floor (current + step) < endv := by
        have h1 : ((Int.floor (current + step) : ℤ) : ℚ) < (endv : ℚ) :=
          lt_of_le_of_lt (Int.floor_le _) (lt_of_not_le hc)
        exact_mod_cast h1
      have hmin : min endv (Int.floor (current + step)) = Int.floor (current + step) :=
        min_eq_right (le_of_lt hflt)
      have hmono : min endv (Int.floor (current + step)) ≤
          min endv (Int.floor (current + step + step)) :=
        min_le_min (le_refl _) (Int.floor_le_floor (by linarith))
      constructor
      · rw [List.chain'_cons']
        refine ⟨?_, ihc⟩
        intro y hy
        have := ihb y (List.mem_of_mem_head? hy)
        omega
      · intro x hx
        rcases List.mem_cons.mp hx with rfl | hx
        · omega
        · have := ihb x hx
          omega

/-- With enough fuel to reach `end`, the last written value is exactly `end`. -/
theorem simulateProgress_last (endv : ℤ) (step : ℚ) :
    ∀ (fuel : ℕ) (current : ℚ), (endv : ℚ) ≤ current + fuel * step → fuel ≠ 0 →
      (simulateProgress current endv step fuel).getLast? = some endv := by
  intro fuel
  induction fuel with
  | zero =>
    intro current _ h0
    exact absurd rfl h0
  | succ n ih =>
    intro current hfuel _
    simp only [simulateProgress]
    by_cases hc : (endv : ℚ) ≤ current + step
    · rw [if_pos hc]
      rfl
    · rw [if_neg hc]
      have hn : n ≠ 0 := by
        rintro rfl
        apply hc
        push_cast at hfuel
        linarith
      have hfuel2 : (endv : ℚ) ≤ (current + step) + n * step := by
        push_cast at hfuel ⊢
        linarith
      have hlast := ih (current + step) hfuel2 hn
      have hne : simulateProgress (current + step) endv step n ≠ [] := by
        intro he
        rw [he] at hlast
        simp at hlast
      obtain ⟨b, l2, he⟩ := List.exists_cons_of_ne_nil hne
      rw [he, List.getLast?_cons_cons, ← he]
      exact hlast

/-! ## Claim C4 -/

/-- C4 (confirmed): in every run, the part_000 staged sequence writes the
non-decreasing progress values 0,10,35,65,85,95,100 ending exactly at 100, and
the second part_002 variant's `simulateProgress`-driven run writes a
non-decreasing sequence whose final write is exactly 100. -/
theorem C4_progress_monotone (file : Option String) (url : String)
    (collab : Except String String) :
    List.Chain' (· ≤ ·) (stagedBodyP000 file url collab).writes ∧
    (stagedBodyP000 file url collab).writes.getLast? = some 100 ∧
    List.Chain' (· ≤ ·) progressWritesP002v2 ∧
    progressWritesP002v2.getLast? = some 100 := by
  have hs1 : (0:ℚ) ≤ (((30:ℤ):ℚ) - ((5:ℤ):ℚ)) / (1000 / 30) := by norm_num
  have hs2 : (0:ℚ) ≤ (((70:ℤ):ℚ) - ((30:ℤ):ℚ)) / (2000 / 30) := by norm_num
  have hs3 : (0:ℚ) ≤ (((100:ℤ):ℚ) - ((70:ℤ):ℚ)) / (800 / 30) := by norm_num
  have f1 : Int.floor (((5:ℤ):ℚ) + (((30:ℤ):ℚ) - ((5:ℤ):ℚ)) / (1000 / 30)) = 5 := by
    push_cast
    norm_num
  have f2 : Int.floor (((30:ℤ):ℚ) + (((70:ℤ):ℚ) - ((30:ℤ):ℚ)) / (2000 / 30)) = 30 := by
    push_cast
    norm_num
  have f3 : Int.floor (((70:ℤ):ℚ) + (((100:ℤ):ℚ) - ((70:ℤ):ℚ)) / (800 / 30)) = 71 := by
    push_cast
    norm_num
  have c1 : List.Chain' (· ≤ ·) (simRun 5 30 1000 100) :=
    (simulateProgress_chain 30 _ hs1 100 ((5:ℤ):ℚ)).1
  have c2 : List.Chain' (· ≤ ·) (simRun 30 70 2000 200) :=
    (simulateProgress_chain 70 _ hs2 200 ((30:ℤ):ℚ)).1
  have c3 : List.Chain' (· ≤ ·) (simRun 70 100 800 100) :=
    (simulateProgress_chain 100 _ hs3 100 ((70:ℤ):ℚ)).1
  have b1 : ∀ x ∈ simRun 5 30 1000 100, (5:ℤ) ≤ x := by
    intro x hx
    have hb := (simulateProgress_chain 30 _ hs1 100 ((5:ℤ):ℚ)).2 x hx
    rw [f1] at hb
    omega
  have b2 : ∀ x ∈ simRun 30 70 2000 200, (30:ℤ) ≤ x := by
    intro x hx
    have hb := (simulateProgress_chain 70 _ hs2 200 ((30:ℤ):ℚ)).2 x hx
    rw [f2] at hb
    omega
  have b3 : ∀ x ∈ simRun 70 100 800 100, (70:ℤ) ≤ x := by
    intro x hx
    have hb := (simulateProgress_chain 100 _ hs3 100 ((70:ℤ):ℚ)).2 x hx
    rw [f3] at hb
    omega
  have l1 : (simRun 5 30 1000 100).getLast? = some 30 :=
    simulateProgress_last 30 _ 100 ((5:ℤ):ℚ) (by push_cast; norm_num) (by norm_num)
  have l2 : (simRun 30 70 2000 200).getLast? = some 70 :=
    simulateProgress_last 70 _ 200 ((30:ℤ):ℚ) (by push_cast; norm_num) (by norm_num)
  have l3 : (simRun 70 100 800 100).getLast? = some 100 :=
    simulateProgress_last 100 _ 100 ((70:ℤ):ℚ) (by push_cast; norm_num) (by norm_num)
  have hne3 : simRun 70 100 800 100 ≠ [] := by
    intro he
    rw [he] at l3
    simp at l3
  have c23 : List.Chain' (· ≤ ·) (simRun 30 70 2000 200 ++ simRun 70 100 800 100) := by
    refine c2.append c3 ?_
    intro x hx y hy
    rw [l2, Option.mem_some_iff] at hx
    have := b3 y (List.mem_of_mem_head? hy)
    omega
  have c123 : List.Chain' (· ≤ ·)
      (simRun 5 30 1000 100 ++ (simRun 30 70 2000 200 ++ simRun 70 100 800 100)) := by
    refine c1.append c23 ?_
    intro x hx y hy
    rw [l1, Option.mem_some_iff] at hx
    have hymem := List.mem_of_mem_head? hy
    rcases List.mem_append.mp hymem with h | h
    · have := b2 y h
      omega
    · have := b3 y h
      omega
  refine ⟨(by norm_num [List.chain'_cons] :
      List.Chain' (· ≤ ·) ([0, 10, 35, 65, 85, 95, 100] : List ℤ)),
    (by rfl : ([0, 10, 35, 65, 85, 95, 100] : List ℤ).getLast? = some 100), ?_, ?_⟩
  · rw [progressWritesP002v2, List.chain'_cons']
    refine ⟨?_, c123⟩
    intro y hy
    have hymem := List.mem_of_mem_head? hy
    rcases List.mem_append.mp hymem with h | h
    · exact b1 y h
    · rcases List.mem_append.mp h with h | h
      · have := b2 y h
        omega
      · have := b3 y h
        omega
  · show (([5] : List ℤ) ++ (simRun 5 30 1000 100 ++
        (simRun 30 70 2000 200 ++ simRun 70 100 800 100))).getLast? = some 100
    have hne23 : simRun 30 70 2000 200 ++ simRun 70 100 800 100 ≠ [] := by
      simp [List.append_eq_nil, hne3]
    have hneX : simRun 5 30 1000 100 ++
        (simRun 30 70 2000 200 ++ simRun 70 100 800 100) ≠ [] := by
      simp [List.append_eq_nil, hne3]
    rw [List.getLast?_append_of_ne_nil _ hneX, List.getLast?_append_of_ne_nil _ hne23,
      List.getLast?_append_of_ne_nil _ hne3]
    exact l3

/-! ## Claim C9 -/

/-- C9 (confirmed): whatever the outcome of the optional text-generation call —
success or failure — the inner catch absorbs it: the staged sequences of
part_000 and part_002 perform the same progress writes, surface no error, and
finish with the same Ready result (ending at progress 100); only the console
log differs. -/
theorem C9_collaborator_isolated (file : Option String) (url : String)
    (o : Except String String) :
    (stagedBodyP000 file url o).errorOut = none ∧
    (stagedBodyP000 file url o).writes = (stagedBodyP000 file url (Except.ok "")).writes ∧
    (stagedBodyP000 file url o).result = (stagedBodyP000 file url (Except.ok "")).result ∧
    (stagedBodyP000 file url o).result = some (resultHandleP000 file url) ∧
    (stagedBodyP000 file url o).writes.getLast? = some 100 ∧
    (stagedBodyP002 file url o).errorOut = none ∧
    (stagedBodyP002 file url o).writes = (stagedBodyP002 file url (Except.ok "")).writes ∧
    (stagedBodyP002 file url o).result = (stagedBodyP002 file url (Except.ok "")).result ∧
    (stagedBodyP002 file url o).writes.getLast? = some 100 :=
  ⟨rfl, rfl, rfl, rfl, rfl, rfl, rfl, rfl, rfl⟩
